import Mathlib

/-!
Verification of the koa-template image-compression service.

Shallow embedding of the request handlers in node-functions/koa and the
curl-proxy conversion. JavaScript numbers that are used as integers are
modelled by Int, JavaScript NaN by Option.none, byte buffers by List Nat,
and the external image capability (sharp) by abstract parameters: the
resolved input size and a function from the encode call to the output
size. Exact rational arithmetic stands in for JavaScript float arithmetic
in the compression-ratio computation.
-/

/- ### JavaScript value model -/

inductive JSValue where
  | num (n : Int)
  | str (s : String)
deriving DecidableEq

/-- JavaScript truthiness of a primitive value (0 and the empty string are falsy). -/
def truthyVal : JSValue → Bool
  | JSValue.num n => n != 0
  | JSValue.str s => s != ""

/-- JavaScript truthiness of a possibly-undefined string (undefined and empty are falsy). -/
def truthyStr : Option String → Bool
  | none => false
  | some s => s != ""

/-- Helper for splitChar: accumulates the current field (reversed). -/
def splitCharAux (sep : Char) : List Char → List Char → List String
  | [], acc => [String.mk acc.reverse]
  | c :: rest, acc =>
    if c = sep then String.mk acc.reverse :: splitCharAux sep rest []
    else splitCharAux sep rest (c :: acc)

/-- JavaScript String.prototype.split with a single-character separator. -/
def splitChar (sep : Char) (s : String) : List String :=
  splitCharAux sep s.data []

/-- JavaScript String.prototype.toLowerCase (ASCII range, as used by the handlers). -/
def lowerStr (s : String) : String :=
  String.mk (s.data.map Char.toLower)

/-- Digits of a decimal numeral folded into a Nat. -/
def digitsToNat (ds : List Char) : Nat :=
  ds.foldl (fun a c => a * 10 + (c.toNat - 48)) 0

/-- Leading decimal digits of a character list; none when there is no digit. -/
def parseIntDigits (cs : List Char) : Option Nat :=
  let ds := cs.takeWhile Char.isDigit
  if ds.isEmpty then none else some (digitsToNat ds)

/-- JavaScript parseInt on a string: skip whitespace, optional sign, leading
digits; NaN (here none) when no digit is found. -/
def parseIntStr (s : String) : Option Int :=
  match s.data.dropWhile Char.isWhitespace with
  | '-' :: rest => (parseIntDigits rest).map (fun n => -(n : Int))
  | '+' :: rest => (parseIntDigits rest).map (fun n => (n : Int))
  | cs => (parseIntDigits cs).map (fun n => (n : Int))

/-- JavaScript parseInt applied to a quality parameter that is either a number
or a string. An integer number parses to itself. -/
def parseIntJS : JSValue → Option Int
  | JSValue.num n => some n
  | JSValue.str s => parseIntStr s

/-- JavaScript Math.min with a possibly-NaN second argument (NaN propagates). -/
def jsMin (a : Int) : Option Int → Option Int
  | none => none
  | some b => some (min a b)

/-- JavaScript Math.max with a possibly-NaN second argument (NaN propagates). -/
def jsMax (a : Int) : Option Int → Option Int
  | none => none
  | some b => some (max a b)

/-- The quality clamp of both compression routes:
Math.max(1, Math.min(100, parseInt(quality))). -/
def clampQuality (q : JSValue) : Option Int :=
  jsMax 1 (jsMin 100 (parseIntJS q))

/- ### Output format and encode call -/

inductive OutFormat where
  | webp
  | png
  | jpeg
deriving DecidableEq

/-- The arguments the handler hands to the image capability for encoding:
chosen codec, quality option (none models NaN) and, for PNG, the hardcoded
compressionLevel 9. -/
structure EncodeCall where
  fmt : OutFormat
  quality : Option Int
  compressionLevel : Option Nat
deriving DecidableEq

/-- The switch on format.toLowerCase() of both routes: webp and png are
recognized; jpeg, jpg and every other string select JPEG encoding. -/
def mkEncodeCall (format : String) (q : Option Int) : EncodeCall :=
  if lowerStr format = "webp" then ⟨OutFormat.webp, q, none⟩
  else if lowerStr format = "png" then ⟨OutFormat.png, q, some 9⟩
  else ⟨OutFormat.jpeg, q, none⟩

/- ### Number rendering: toFixed(2) -/

/-- Two decimal digits of a Nat below 100, with a leading zero. -/
def twoDigits (m : Nat) : String :=
  String.mk [Nat.digitChar (m / 10 % 10), Nat.digitChar (m % 10)]

/-- toFixed(2) for a nonnegative rational: round to the nearest hundredth
(ties away from zero upward, as ECMA picks the larger candidate) and render
with exactly two digits after the decimal point. -/
def toFixed2Pos (q : ℚ) : String :=
  let n : Nat := (⌊q * 100 + 1 / 2⌋).toNat
  toString (n / 100) ++ "." ++ twoDigits (n % 100)

/-- JavaScript Number.prototype.toFixed(2) on an exact rational value. -/
def toFixed2 (q : ℚ) : String :=
  if q < 0 then "-" ++ toFixed2Pos (-q) else toFixed2Pos q

/-- The X-Compression-Ratio header value:
((1 - compressedSize / originalSize) * 100).toFixed(2) followed by a percent sign. -/
def ratioHeaderStr (origSize compressedSize : Nat) : String :=
  toFixed2 ((1 - (compressedSize : ℚ) / (origSize : ℚ)) * 100) ++ "%"

/- ### The compress-by-reference handler (POST /compress) -/

/-- Result of the lazy capability load as the routes observe it. -/
inductive LoaderResult where
  | ok
  | failed (msg : String)
deriving DecidableEq

/-- JSON body of POST /compress; absent fields are none. -/
structure CompressReq where
  url : Option String
  base64 : Option String
  quality : Option JSValue
  width : Option JSValue
  height : Option JSValue
  format : Option String
deriving DecidableEq

/-- Observable outcome of the /compress handler: HTTP status, the
Content-Type header, the error message body field, whether the capability
loader was invoked, the encode call handed to the capability, and the
X-Compression-Ratio header. -/
structure CompressResp where
  status : Nat
  contentType : Option String
  errMessage : Option String
  loaderInvoked : Bool
  encodeCall : Option EncodeCall
  xRatio : Option String
deriving DecidableEq

/-- Fallback message used when the retained loader error has no message. -/
def sharpFallbackMsg : String := "Sharp module not loaded correctly"

/-- The POST /compress route handler. External effects are parameters:
origSize is the byte length of the image resolved from url or base64, and
encSize maps the encode call to the output byte length. -/
def compressHandler (loader : LoaderResult) (origSize : Nat)
    (encSize : EncodeCall → Nat) (req : CompressReq) : CompressResp :=
  let quality := req.quality.getD (JSValue.num 80)
  let format := req.format.getD "png"
  if truthyStr req.url = false ∧ truthyStr req.base64 = false then
    { status := 400, contentType := none, errMessage := none,
      loaderInvoked := false, encodeCall := none, xRatio := none }
  else
    match loader with
    | LoaderResult.failed msg =>
      { status := 503, contentType := none,
        errMessage := some (if msg = "" then sharpFallbackMsg else msg),
        loaderInvoked := true, encodeCall := none, xRatio := none }
    | LoaderResult.ok =>
      let qualityNum := clampQuality quality
      let call := mkEncodeCall format qualityNum
      let compressedSize := encSize call
      { status := 200,
        contentType := some ("image/" ++ (if format = "jpeg" then "jpeg" else format)),
        errMessage := none,
        loaderInvoked := true,
        encodeCall := some call,
        xRatio := some (ratioHeaderStr origSize compressedSize) }

/- ### The compress-by-upload handler (POST /compress/upload) -/

/-- The shapes the uploaded file value can take in ctx.request.files.file or
ctx.request.body.file: a Buffer, an object with a buffer field, an object
with a data field, or anything else. -/
inductive FileVal where
  | buf (b : List Nat)
  | withBuffer (b : List Nat)
  | withData (d : List Nat)
  | plain
deriving DecidableEq

/-- Byte extraction from a file value, as performed by the handler. -/
def fileValBytes : FileVal → Option (List Nat)
  | FileVal.buf b => some b
  | FileVal.withBuffer b => some b
  | FileVal.withData d => some d
  | FileVal.plain => none

/-- The parts of the request context the upload handler inspects. -/
structure UploadCtx where
  queryQuality : Option JSValue
  bodyQuality : Option JSValue
  queryWidth : Option JSValue
  bodyWidth : Option JSValue
  queryHeight : Option JSValue
  bodyHeight : Option JSValue
  queryFormat : Option String
  bodyFormat : Option String
  reqReadable : Bool
  chunks : List (List Nat)
  filesFile : Option FileVal
  bodyBuffer : Option (List Nat)
  bodyFile : Option FileVal
deriving DecidableEq

/-- JavaScript a or-else b or-else dflt on values (first truthy wins). -/
def jsOrV (a b : Option JSValue) (dflt : JSValue) : JSValue :=
  match a with
  | some v => if truthyVal v then v else
      match b with
      | some w => if truthyVal w then w else dflt
      | none => dflt
  | none =>
      match b with
      | some w => if truthyVal w then w else dflt
      | none => dflt

/-- JavaScript a or-else b or-else dflt on strings (first nonempty wins). -/
def jsOrS (a b : Option String) (dflt : String) : String :=
  match a with
  | some v => if v != "" then v else
      match b with
      | some w => if w != "" then w else dflt
      | none => dflt
  | none =>
      match b with
      | some w => if w != "" then w else dflt
      | none => dflt

/-- The four-way payload resolution of the upload handler: request stream
first, then files.file, then a raw body Buffer, then body.file. A readable
stream with no chunks leaves the buffer undefined. -/
def resolveUploadBuffer (ctx : UploadCtx) : Option (List Nat) :=
  if ctx.reqReadable then
    if ctx.chunks.isEmpty then none else some ctx.chunks.flatten
  else
    match ctx.filesFile with
    | some f => fileValBytes f
    | none =>
      match ctx.bodyBuffer with
      | some b => some b
      | none =>
        match ctx.bodyFile with
        | some f => fileValBytes f
        | none => none

/-- Observable outcome of the /compress/upload handler. -/
structure UploadResp where
  status : Nat
  contentType : Option String
  errMessage : Option String
  encodeCall : Option EncodeCall
  xRatio : Option String
deriving DecidableEq

/-- The POST /compress/upload route handler. The capability check comes
first; then options are read from query with body fallback, the payload is
resolved, and an empty payload is rejected with 400. -/
def uploadHandler (loader : LoaderResult) (encSize : EncodeCall → Nat)
    (ctx : UploadCtx) : UploadResp :=
  match loader with
  | LoaderResult.failed msg =>
    { status := 503, contentType := none,
      errMessage := some (if msg = "" then sharpFallbackMsg else msg),
      encodeCall := none, xRatio := none }
  | LoaderResult.ok =>
    let quality := jsOrV ctx.queryQuality ctx.bodyQuality (JSValue.num 80)
    let format := lowerStr (jsOrS ctx.queryFormat ctx.bodyFormat "jpeg")
    match resolveUploadBuffer ctx with
    | none =>
      { status := 400, contentType := none, errMessage := none,
        encodeCall := none, xRatio := none }
    | some imageBuffer =>
      if imageBuffer.length = 0 then
        { status := 400, contentType := none, errMessage := none,
          encodeCall := none, xRatio := none }
      else
        let qualityNum := clampQuality quality
        let call := mkEncodeCall format qualityNum
        let compressedSize := encSize call
        { status := 200,
          contentType := some ("image/" ++ (if format = "jpeg" then "jpeg" else format)),
          errMessage := none,
          encodeCall := some call,
          xRatio := some (ratioHeaderStr imageBuffer.length compressedSize) }

/- ### The curl-proxy conversion -/

/-- Descriptor produced by the external curl-command parser. -/
structure CurlRequest where
  url : String
  method : Option String
  headers : List (String × String)
  cookieString : Option String
  data : Option String
  query : Option (List (String × String))
  auth : Option String
deriving DecidableEq

/-- Basic-auth credentials of the outbound request configuration. -/
structure AxiosAuth where
  username : String
  password : String
deriving DecidableEq

/-- The outbound HTTP client configuration built by requestToAxiosConfig. -/
structure AxiosConfig where
  url : String
  method : String
  headers : List (String × String)
  data : Option String
  params : Option (List (String × String))
  auth : Option AxiosAuth
deriving DecidableEq

/-- Conversion of a curl descriptor to the outbound request configuration:
method defaults to get, the cookie string becomes a Cookie header, data is
forwarded when defined, query parameters only when nonempty, and auth is
destructured from split on the colon character with empty-string defaults. -/
def requestToAxiosConfig (r : CurlRequest) : AxiosConfig :=
  let method := match r.method with
    | some m => if m != "" then m else "get"
    | none => "get"
  let headers := match r.cookieString with
    | some ck => if ck != "" then r.headers ++ [("Cookie", ck)] else r.headers
    | none => r.headers
  let params := match r.query with
    | some q => if q.length > 0 then some q else none
    | none => none
  let auth := match r.auth with
    | some a =>
      if a != "" then
        let parts := splitChar ':' a
        some { username := parts.headD "", password := (parts.get? 1).getD "" }
      else none
    | none => none
  { url := r.url, method := method, headers := headers,
    data := r.data, params := params, auth := auth }

/- ### The capability loaders -/

/-- Module-level state of loadSharp in node-functions/koa: the loaded flag,
the cached handle, the retained error, and how many times the strategy
chain has actually been run (to observe re-attempts). -/
structure SharpLoadState where
  sharpLoaded : Bool
  sharp : Option Unit
  sharpError : Option String
  attempts : Nat
deriving DecidableEq

def initSharpLoadState : SharpLoadState :=
  { sharpLoaded := false, sharp := none, sharpError := none, attempts := 0 }

/-- One call of loadSharp. The oracle gives the outcome of the n-th actual
run of the load-strategy chain. The loaded flag is set before the attempt,
so both a success and a failure are cached for every later call. -/
def loadSharp (oracle : Nat → Except String Unit) (s : SharpLoadState) :
    SharpLoadState × (Option Unit × Option String) :=
  if s.sharpLoaded then (s, (s.sharp, s.sharpError))
  else
    match oracle s.attempts with
    | Except.ok h =>
      let s2 : SharpLoadState :=
        { sharpLoaded := true, sharp := some h, sharpError := none,
          attempts := s.attempts + 1 }
      (s2, (s2.sharp, s2.sharpError))
    | Except.error e =>
      let s2 : SharpLoadState :=
        { sharpLoaded := true, sharp := none, sharpError := some e,
          attempts := s.attempts + 1 }
      (s2, (s2.sharp, s2.sharpError))

/-- Module-level state of getSharp in the part_001 variant: only the handle
is cached; there is no loaded flag. -/
structure GetSharpState where
  sharp : Option Unit
  attempts : Nat
deriving DecidableEq

def initGetSharpState : GetSharpState :=
  { sharp := none, attempts := 0 }

/-- One call of getSharp: return the cached handle when present, otherwise
run the dynamic import again. A failed import leaves the cache empty, so
the next call attempts the load again. -/
def getSharp (oracle : Nat → Except String Unit) (s : GetSharpState) :
    GetSharpState × Except String Unit :=
  match s.sharp with
  | some h => (s, Except.ok h)
  | none =>
    match oracle s.attempts with
    | Except.ok h =>
      ({ sharp := some h, attempts := s.attempts + 1 }, Except.ok h)
    | Except.error e =>
      ({ sharp := none, attempts := s.attempts + 1 }, Except.error e)

/- ### The synchronous wait facade (waitForSharpSync) -/

/-- State of the remote loader as observed at a point in time: the download
still in flight, completed (sharpNative set), or failed (loadingPromise
cleared without a handle). -/
inductive LoadPhase where
  | loading
  | loaded
  | failed
deriving DecidableEq

/-- The inner busy-wait of waitForSharpSync: spin for k milliseconds from
time t, returning early the moment the handle is observed. -/
def innerSpin (env : Nat → LoadPhase) : Nat → Nat → Nat × Bool
  | t, 0 => (t, false)
  | t, k + 1 =>
    if env t = LoadPhase.loaded then (t, true) else innerSpin env (t + 1) k

/-- The outer polling loop of waitForSharpSync: while the handle is absent,
the download is in flight and the elapsed time is below maxWaitMs, spin for
one 50 ms check interval. The fuel bounds the number of outer iterations;
201 intervals more than cover the 10000 ms cap. -/
def waitLoop (env : Nat → LoadPhase) (maxWaitMs : Nat) : Nat → Nat → Nat × Option Unit
  | 0, t => (t, if env t = LoadPhase.loaded then some () else none)
  | fuel + 1, t =>
    if env t ≠ LoadPhase.loaded ∧ env t = LoadPhase.loading ∧ t < maxWaitMs then
      match innerSpin env t 50 with
      | (t2, true) => (t2, some ())
      | (t2, false) => waitLoop env maxWaitMs fuel t2
    else (t, if env t = LoadPhase.loaded then some () else none)

/-- waitForSharpSync with its default 10000 ms cap and 50 ms check interval,
started at time 0 relative to the call. -/
def waitForSharpSync (env : Nat → LoadPhase) : Nat × Option Unit :=
  waitLoop env 10000 201 0

/-- Environment in which the remote download completes at time t0. -/
def stepEnv (t0 : Nat) : Nat → LoadPhase :=
  fun t => if t < t0 then LoadPhase.loading else LoadPhase.loaded

/- ### Concrete inputs used by counterexamples and witnesses -/

/-- A /compress request by url with the unrecognized format gif. -/
def reqGif : CompressReq :=
  ⟨some "https://example.com/cat.png", none, none, none, none, some "gif"⟩

/-- A /compress request by url with format png and quality 0. -/
def reqPng0 : CompressReq :=
  ⟨some "https://example.com/cat.png", none, some (JSValue.num 0), none, none, some "png"⟩

/-- A /compress request by url with the non-numeric quality string abc. -/
def reqAbc : CompressReq :=
  ⟨some "https://example.com/cat.png", none, some (JSValue.str "abc"), none, none, some "jpeg"⟩

/-- A /compress request with neither url nor base64. -/
def reqEmpty : CompressReq :=
  ⟨none, none, none, none, none, none⟩

/-- A /compress request by base64 with no explicit options. -/
def reqB64 : CompressReq :=
  ⟨none, some "aGVsbG8=", none, none, none, none⟩

/-- An upload context carrying a two-byte stream payload and format WEBP. -/
def ctxStream : UploadCtx :=
  ⟨none, none, none, none, none, none, some "WEBP", none, true, [[1, 2]], none, none, none⟩

/-- An upload context whose request stream is readable but delivers no chunks. -/
def ctxNoPayload : UploadCtx :=
  ⟨none, none, none, none, none, none, none, none, true, [], none, none, none⟩

/-- A curl descriptor with the given basic-auth credential string. -/
def mkCurlReq (a : Option String) : CurlRequest :=
  ⟨"https://example.com/api", some "POST", [("X-Test", "1")], none, some "payload", none, a⟩

/-- An oracle whose first load attempt fails and whose later attempts succeed. -/
def failThenOk : Nat → Except String Unit :=
  fun n => if n = 0 then Except.error "download failed" else Except.ok ()

/- ### Helper lemmas -/

theorem mkEncodeCall_quality (f : String) (q : Option Int) :
    (mkEncodeCall f q).quality = q := by
  unfold mkEncodeCall
  split_ifs <;> rfl

theorem no_source_iff (req : CompressReq) (h : truthyStr req.url = true ∨ truthyStr req.base64 = true) :
    ¬(truthyStr req.url = false ∧ truthyStr req.base64 = false) := by
  rcases h with h | h <;> simp [h]

/- ### Claim C4 -/

/-- Claim C4: a POST /compress request whose body has neither a url nor a
base64 field is answered with status 400, and neither the capability loader
nor the capability is invoked. -/
theorem c4_missing_source_400 (loader : LoaderResult) (origSize : Nat)
    (encSize : EncodeCall → Nat) (req : CompressReq)
    (hu : req.url = none) (hb : req.base64 = none) :
    (compressHandler loader origSize encSize req).status = 400 ∧
    (compressHandler loader origSize encSize req).loaderInvoked = false ∧
    (compressHandler loader origSize encSize req).encodeCall = none := by
  simp [compressHandler, hu, hb, truthyStr]

/-- Witness for c4_missing_source_400 at a concrete empty request. -/
theorem c4_witness :
    reqEmpty.url = none ∧ reqEmpty.base64 = none ∧
    (compressHandler LoaderResult.ok 0 (fun _ => 0) reqEmpty).status = 400 ∧
    (compressHandler LoaderResult.ok 0 (fun _ => 0) reqEmpty).loaderInvoked = false ∧
    (compressHandler LoaderResult.ok 0 (fun _ => 0) reqEmpty).encodeCall = none :=
  ⟨rfl, rfl, c4_missing_source_400 LoaderResult.ok 0 (fun _ => 0) reqEmpty rfl rfl⟩

/- ### Claim C6 -/

/-- Claim C6: when the capability load has failed with a retained message,
a /compress request that carries a source and every /compress/upload request
are answered with status 503 carrying that message, and the handlers return
normally (no crash). -/
theorem c6_unavailable_503 (origSize : Nat) (encSize : EncodeCall → Nat)
    (req : CompressReq) (ctx : UploadCtx) (msg : String) (hmsg : msg ≠ "")
    (hsrc : truthyStr req.url = true ∨ truthyStr req.base64 = true) :
    (compressHandler (LoaderResult.failed msg) origSize encSize req).status = 503 ∧
    (compressHandler (LoaderResult.failed msg) origSize encSize req).errMessage = some msg ∧
    (uploadHandler (LoaderResult.failed msg) encSize ctx).status = 503 ∧
    (uploadHandler (LoaderResult.failed msg) encSize ctx).errMessage = some msg := by
  have hneg := no_source_iff req hsrc
  refine ⟨?_, ?_, ?_, ?_⟩ <;> simp [compressHandler, uploadHandler, hneg, hmsg]

/-- Witness for c6_unavailable_503 at a concrete request and context. -/
theorem c6_witness :
    ("native load failed" ≠ "") ∧
    (truthyStr reqB64.url = true ∨ truthyStr reqB64.base64 = true) ∧
    ((compressHandler (LoaderResult.failed "native load failed") 9 (fun _ => 9) reqB64).status = 503 ∧
     (compressHandler (LoaderResult.failed "native load failed") 9 (fun _ => 9) reqB64).errMessage =
       some "native load failed" ∧
     (uploadHandler (LoaderResult.failed "native load failed") (fun _ => 9) ctxStream).status = 503 ∧
     (uploadHandler (LoaderResult.failed "native load failed") (fun _ => 9) ctxStream).errMessage =
       some "native load failed") :=
  ⟨by decide, by decide,
    c6_unavailable_503 9 (fun _ => 9) reqB64 ctxStream "native load failed" (by decide) (by decide)⟩

/- ### Claim C7 -/

/-- Claim C7: a POST /compress/upload request whose payload resolution
(request stream, then files.file, then raw body buffer, then body.file)
yields nothing or an empty buffer is answered with status 400 when the
capability is available. -/
theorem c7_empty_upload_400 (encSize : EncodeCall → Nat) (ctx : UploadCtx)
    (hbuf : ∀ b, resolveUploadBuffer ctx = some b → b.length = 0) :
    (uploadHandler LoaderResult.ok encSize ctx).status = 400 := by
  cases hres : resolveUploadBuffer ctx with
  | none => simp [uploadHandler, hres]
  | some b =>
    have hlen := hbuf b hres
    simp [uploadHandler, hres, hlen]

/-- Witness for c7_empty_upload_400 at a readable stream with no chunks. -/
theorem c7_witness :
    (∀ b, resolveUploadBuffer ctxNoPayload = some b → b.length = 0) ∧
    (uploadHandler LoaderResult.ok (fun _ => 0) ctxNoPayload).status = 400 :=
  ⟨fun b hb => by simp [resolveUploadBuffer, ctxNoPayload] at hb,
    c7_empty_upload_400 (fun _ => 0) ctxNoPayload
      (fun b hb => by simp [resolveUploadBuffer, ctxNoPayload] at hb)⟩

/- ### Claim C5 -/

/-- Claim C5: on a compression request whose quality parses to an integer n,
the encoder receives quality max 1 (min 100 n), which lies in [1, 100]; the
clamp maps 0, -5 and 150 to 1, 1 and 100 respectively. -/
theorem c5_quality_clamped (origSize : Nat) (encSize : EncodeCall → Nat)
    (req : CompressReq) (q : JSValue) (n : Int)
    (hq : req.quality = some q) (hn : parseIntJS q = some n)
    (hsrc : truthyStr req.url = true ∨ truthyStr req.base64 = true) :
    (∃ call, (compressHandler LoaderResult.ok origSize encSize req).encodeCall = some call ∧
      call.quality = some (max 1 (min 100 n)) ∧
      1 ≤ max 1 (min 100 n) ∧ max 1 (min 100 n) ≤ 100) ∧
    clampQuality (JSValue.num 0) = some 1 ∧
    clampQuality (JSValue.num (-5)) = some 1 ∧
    clampQuality (JSValue.num 150) = some 100 := by
  have hneg := no_source_iff req hsrc
  refine ⟨⟨mkEncodeCall (req.format.getD "png") (clampQuality q), ?_, ?_, ?_, ?_⟩,
    by decide, by decide, by decide⟩
  · simp [compressHandler, hneg, hq]
  · rw [mkEncodeCall_quality]
    simp [clampQuality, hn, jsMin, jsMax]
  · exact le_max_left _ _
  · exact max_le (by norm_num) (min_le_left _ _)

/-- Witness for c5_quality_clamped at quality 0 on a concrete request. -/
theorem c5_witness :
    reqPng0.quality = some (JSValue.num 0) ∧
    parseIntJS (JSValue.num 0) = some 0 ∧
    (truthyStr reqPng0.url = true ∨ truthyStr reqPng0.base64 = true) ∧
    ((∃ call, (compressHandler LoaderResult.ok 9 (fun _ => 9) reqPng0).encodeCall = some call ∧
        call.quality = some (max 1 (min 100 (0 : Int))) ∧
        1 ≤ max 1 (min 100 (0 : Int)) ∧ max 1 (min 100 (0 : Int)) ≤ 100) ∧
      clampQuality (JSValue.num 0) = some 1 ∧
      clampQuality (JSValue.num (-5)) = some 1 ∧
      clampQuality (JSValue.num 150) = some 100) :=
  ⟨rfl, rfl, by decide,
    c5_quality_clamped 9 (fun _ => 9) reqPng0 (JSValue.num 0) 0 rfl rfl (by decide)⟩

/- ### Claim C10 -/

/-- Claim C10: a quality string that does not parse as an integer makes the
clamp expression evaluate to NaN (modelled none), which is not a value in
[1, 100]; the handler does not reject the request but passes the unclamped
NaN quality through to the encoder. -/
theorem c10_nan_quality (origSize : Nat) (encSize : EncodeCall → Nat)
    (req : CompressReq) (s : String)
    (hq : req.quality = some (JSValue.str s)) (hs : parseIntStr s = none)
    (hsrc : truthyStr req.url = true ∨ truthyStr req.base64 = true) :
    clampQuality (JSValue.str s) = none ∧
    parseIntStr "abc" = none ∧
    (∃ call, (compressHandler LoaderResult.ok origSize encSize req).encodeCall = some call ∧
      call.quality = none ∧
      (compressHandler LoaderResult.ok origSize encSize req).status = 200) := by
  have hneg := no_source_iff req hsrc
  refine ⟨?_, by decide,
    ⟨mkEncodeCall (req.format.getD "png") (clampQuality (JSValue.str s)), ?_, ?_, ?_⟩⟩
  · simp [clampQuality, parseIntJS, hs, jsMin, jsMax]
  · simp [compressHandler, hneg, hq]
  · rw [mkEncodeCall_quality]
    simp [clampQuality, parseIntJS, hs, jsMin, jsMax]
  · simp [compressHandler, hneg]

/-- Witness for c10_nan_quality at the quality string abc. -/
theorem c10_witness :
    reqAbc.quality = some (JSValue.str "abc") ∧
    parseIntStr "abc" = none ∧
    (truthyStr reqAbc.url = true ∨ truthyStr reqAbc.base64 = true) ∧
    (clampQuality (JSValue.str "abc") = none ∧
     parseIntStr "abc" = none ∧
     (∃ call, (compressHandler LoaderResult.ok 9 (fun _ => 9) reqAbc).encodeCall = some call ∧
       call.quality = none ∧
       (compressHandler LoaderResult.ok 9 (fun _ => 9) reqAbc).status = 200)) :=
  ⟨rfl, by decide, by decide,
    c10_nan_quality 9 (fun _ => 9) reqAbc "abc" rfl (by decide) (by decide)⟩

/- ### Claim C1 -/

/-- Claim C1 counterexample: a successful /compress response for the
unrecognized format gif carries Content-Type image/gif, not image/jpeg,
even though the encoder was invoked with JPEG. -/
theorem c1_counterexample :
    (compressHandler LoaderResult.ok 100 (fun _ => 80) reqGif).status = 200 ∧
    (compressHandler LoaderResult.ok 100 (fun _ => 80) reqGif).contentType = some "image/gif" ∧
    (compressHandler LoaderResult.ok 100 (fun _ => 80) reqGif).contentType ≠ some "image/jpeg" ∧
    (compressHandler LoaderResult.ok 100 (fun _ => 80) reqGif).encodeCall =
      some ⟨OutFormat.jpeg, some 80, none⟩ := by
  refine ⟨?_, ?_, ?_, ?_⟩ <;> decide

/-- Claim C1 (amended): the Content-Type of a success response is the
requested format string verbatim behind the image/ prefix (lowercased first
on the upload route); an unrecognized format falls back to JPEG encoding
while the Content-Type still names the requested format. -/
theorem c1_contentType_verbatim (origSize : Nat) (encSize : EncodeCall → Nat)
    (req : CompressReq) (ctx : UploadCtx)
    (hsrc : truthyStr req.url = true ∨ truthyStr req.base64 = true)
    (hbuf : ∃ b, resolveUploadBuffer ctx = some b ∧ b.length ≠ 0) :
    ((compressHandler LoaderResult.ok origSize encSize req).contentType =
      some ("image/" ++ req.format.getD "png")) ∧
    (lowerStr (req.format.getD "png") ≠ "webp" → lowerStr (req.format.getD "png") ≠ "png" →
      ∃ call, (compressHandler LoaderResult.ok origSize encSize req).encodeCall = some call ∧
        call.fmt = OutFormat.jpeg) ∧
    ((uploadHandler LoaderResult.ok encSize ctx).contentType =
      some ("image/" ++ lowerStr (jsOrS ctx.queryFormat ctx.bodyFormat "jpeg"))) ∧
    (lowerStr (lowerStr (jsOrS ctx.queryFormat ctx.bodyFormat "jpeg")) ≠ "webp" →
      lowerStr (lowerStr (jsOrS ctx.queryFormat ctx.bodyFormat "jpeg")) ≠ "png" →
      ∃ call, (uploadHandler LoaderResult.ok encSize ctx).encodeCall = some call ∧
        call.fmt = OutFormat.jpeg) := by
  have hneg := no_source_iff req hsrc
  obtain ⟨b, hb, hblen⟩ := hbuf
  refine ⟨?_, ?_, ?_, ?_⟩
  · by_cases hf : req.format.getD "png" = "jpeg" <;> simp [compressHandler, hneg, hf]
  · intro hw hp
    refine ⟨mkEncodeCall (req.format.getD "png")
      (clampQuality (req.quality.getD (JSValue.num 80))), ?_, ?_⟩
    · simp [compressHandler, hneg]
    · unfold mkEncodeCall
      rw [if_neg hw, if_neg hp]
  · by_cases hf : lowerStr (jsOrS ctx.queryFormat ctx.bodyFormat "jpeg") = "jpeg" <;>
      simp [uploadHandler, hb, hblen, hf]
  · intro hw hp
    refine ⟨mkEncodeCall (lowerStr (jsOrS ctx.queryFormat ctx.bodyFormat "jpeg"))
      (clampQuality (jsOrV ctx.queryQuality ctx.bodyQuality (JSValue.num 80))), ?_, ?_⟩
    · simp [uploadHandler, hb, hblen]
    · unfold mkEncodeCall
      rw [if_neg hw, if_neg hp]

/-- Witness for c1_contentType_verbatim at concrete requests. -/
theorem c1_witness :
    (truthyStr reqGif.url = true ∨ truthyStr reqGif.base64 = true) ∧
    (∃ b, resolveUploadBuffer ctxStream = some b ∧ b.length ≠ 0) ∧
    (((compressHandler LoaderResult.ok 10 (fun _ => 5) reqGif).contentType =
        some ("image/" ++ reqGif.format.getD "png")) ∧
      (lowerStr (reqGif.format.getD "png") ≠ "webp" → lowerStr (reqGif.format.getD "png") ≠ "png" →
        ∃ call, (compressHandler LoaderResult.ok 10 (fun _ => 5) reqGif).encodeCall = some call ∧
          call.fmt = OutFormat.jpeg) ∧
      ((uploadHandler LoaderResult.ok (fun _ => 5) ctxStream).contentType =
        some ("image/" ++ lowerStr (jsOrS ctxStream.queryFormat ctxStream.bodyFormat "jpeg"))) ∧
      (lowerStr (lowerStr (jsOrS ctxStream.queryFormat ctxStream.bodyFormat "jpeg")) ≠ "webp" →
        lowerStr (lowerStr (jsOrS ctxStream.queryFormat ctxStream.bodyFormat "jpeg")) ≠ "png" →
        ∃ call, (uploadHandler LoaderResult.ok (fun _ => 5) ctxStream).encodeCall = some call ∧
          call.fmt = OutFormat.jpeg)) :=
  ⟨by decide, ⟨[1, 2], rfl, by decide⟩,
    c1_contentType_verbatim 10 (fun _ => 5) reqGif ctxStream (by decide) ⟨[1, 2], rfl, by decide⟩⟩

/- ### Claim C2 -/

/-- Claim C2 counterexample: for the credential string user:pass:extra the
conversion yields password pass, discarding the text after the second
colon instead of keeping it in the password. -/
theorem c2_counterexample :
    (requestToAxiosConfig (mkCurlReq (some "user:pass:extra"))).auth =
      some ⟨"user", "pass"⟩ ∧
    (requestToAxiosConfig (mkCurlReq (some "user:pass:extra"))).auth ≠
      some ⟨"user", "pass:extra"⟩ := by
  refine ⟨?_, ?_⟩ <;> decide

/-- Claim C2 (amended): a nonempty basic-auth credential string is split on
colons; the username is the text before the first colon and the password the
text between the first and second colons (missing parts default to the empty
string, text after a second colon is discarded). In particular user:pass
gives (user, pass), user alone gives (user, empty), and user:pass:extra
gives (user, pass). -/
theorem c2_auth_split (a : String) (r : CurlRequest)
    (ha : a ≠ "") (hr : r.auth = some a) :
    (requestToAxiosConfig r).auth =
      some ⟨(splitChar ':' a).headD "", ((splitChar ':' a).get? 1).getD ""⟩ ∧
    (requestToAxiosConfig (mkCurlReq (some "user:pass"))).auth = some ⟨"user", "pass"⟩ ∧
    (requestToAxiosConfig (mkCurlReq (some "user"))).auth = some ⟨"user", ""⟩ ∧
    (requestToAxiosConfig (mkCurlReq (some "user:pass:extra"))).auth = some ⟨"user", "pass"⟩ := by
  refine ⟨?_, by decide, by decide, by decide⟩
  simp [requestToAxiosConfig, hr, bne_iff_ne, ha]

/-- Witness for c2_auth_split at the credential string user:pass. -/
theorem c2_witness :
    ("user:pass" ≠ "") ∧ (mkCurlReq (some "user:pass")).auth = some "user:pass" ∧
    ((requestToAxiosConfig (mkCurlReq (some "user:pass"))).auth =
        some ⟨(splitChar ':' "user:pass").headD "", ((splitChar ':' "user:pass").get? 1).getD ""⟩ ∧
      (requestToAxiosConfig (mkCurlReq (some "user:pass"))).auth = some ⟨"user", "pass"⟩ ∧
      (requestToAxiosConfig (mkCurlReq (some "user"))).auth = some ⟨"user", ""⟩ ∧
      (requestToAxiosConfig (mkCurlReq (some "user:pass:extra"))).auth = some ⟨"user", "pass"⟩) :=
  ⟨by decide, rfl,
    c2_auth_split "user:pass" (mkCurlReq (some "user:pass")) (by decide) rfl⟩

/- ### Claim C3 -/

theorem loadSharp_loaded (oracle : Nat → Except String Unit) (s : SharpLoadState)
    (h : s.sharpLoaded = true) :
    loadSharp oracle s = (s, (s.sharp, s.sharpError)) := by
  simp [loadSharp, h]

theorem loadSharp_fst_loaded (oracle : Nat → Except String Unit) (s : SharpLoadState) :
    (loadSharp oracle s).1.sharpLoaded = true := by
  unfold loadSharp
  by_cases h : s.sharpLoaded
  · simp [h]
  · cases oracle s.attempts <;> simp [h]

theorem loadSharp_snd_eq (oracle : Nat → Except String Unit) (s : SharpLoadState) :
    (loadSharp oracle s).2 = ((loadSharp oracle s).1.sharp, (loadSharp oracle s).1.sharpError) := by
  unfold loadSharp
  by_cases h : s.sharpLoaded
  · simp [h]
  · cases oracle s.attempts <;> simp [h]

/-- Claim C3 counterexample: with an oracle whose first load attempt fails
and whose second succeeds, the second getSharp call does not return the
cached failure: it runs the strategy again (the attempt counter reaches 2)
and succeeds. -/
theorem c3_counterexample :
    (getSharp failThenOk initGetSharpState).2 = Except.error "download failed" ∧
    (getSharp failThenOk (getSharp failThenOk initGetSharpState).1).1.attempts = 2 ∧
    (getSharp failThenOk (getSharp failThenOk initGetSharpState).1).2 = Except.ok () := by
  refine ⟨rfl, by decide, rfl⟩

/-- Claim C3 (amended): loadSharp is idempotent and memoizes its first
resolution, success or failure, for the process lifetime: a second call
returns the same state and result without running any strategy again.
getSharp memoizes only success: a cached handle is returned unchanged,
but a failure is not cached (see the counterexample). -/
theorem c3_memoization (oracle : Nat → Except String Unit) (s : SharpLoadState)
    (g : GetSharpState) (h : Unit) (hg : g.sharp = some h) :
    loadSharp oracle (loadSharp oracle s).1 = loadSharp oracle s ∧
    getSharp oracle g = (g, Except.ok h) := by
  constructor
  · rw [loadSharp_loaded oracle (loadSharp oracle s).1 (loadSharp_fst_loaded oracle s),
      ← loadSharp_snd_eq]
  · simp [getSharp, hg]

/-- Witness for c3_memoization at a concrete failing oracle and a cached
handle. -/
theorem c3_witness :
    ((⟨some (), 1⟩ : GetSharpState).sharp = some ()) ∧
    (loadSharp (fun _ => Except.error "boom")
        (loadSharp (fun _ => Except.error "boom") initSharpLoadState).1 =
      loadSharp (fun _ => Except.error "boom") initSharpLoadState ∧
     getSharp (fun _ => Except.error "boom") ⟨some (), 1⟩ =
      (⟨some (), 1⟩, Except.ok ())) :=
  ⟨rfl, c3_memoization (fun _ => Except.error "boom") initSharpLoadState ⟨some (), 1⟩ () rfl⟩

/- ### Claim C8 -/

theorem floor_half_natCast (m : ℕ) : ⌊((m : ℚ)) * 100 + 1 / 2⌋ = (m * 100 : ℕ) := by
  have h : ((m : ℚ)) * 100 + 1 / 2 = ((m * 100 : ℕ) : ℤ) + (1 / 2 : ℚ) := by
    push_cast
    ring
  rw [h, Int.floor_int_add]
  norm_num

theorem toFixed2_natCast (m : ℕ) : toFixed2 ((m : ℕ) : ℚ) = toString m ++ ".00" := by
  have h0 : ¬((m : ℚ) < 0) := not_lt.mpr (by positivity)
  simp only [toFixed2, if_neg h0, toFixed2Pos]
  rw [floor_half_natCast, Int.toNat_natCast]
  have h1 : m * 100 / 100 = m := by omega
  have h2 : m * 100 % 100 = 0 := by omega
  rw [h1, h2, String.append_assoc]
  rfl

theorem toFixed2_decimals (q : ℚ) :
    ∃ pre d1 d2, toFixed2 q = pre ++ "." ++ String.mk [d1, d2] := by
  by_cases h : q < 0
  · refine ⟨"-" ++ toString ((⌊(-q) * 100 + 1 / 2⌋).toNat / 100),
      Nat.digitChar ((⌊(-q) * 100 + 1 / 2⌋).toNat % 100 / 10 % 10),
      Nat.digitChar ((⌊(-q) * 100 + 1 / 2⌋).toNat % 100 % 10), ?_⟩
    simp only [toFixed2, if_pos h, toFixed2Pos, twoDigits]
    simp [String.append_assoc]
  · refine ⟨toString ((⌊q * 100 + 1 / 2⌋).toNat / 100),
      Nat.digitChar ((⌊q * 100 + 1 / 2⌋).toNat % 100 / 10 % 10),
      Nat.digitChar ((⌊q * 100 + 1 / 2⌋).toNat % 100 % 10), ?_⟩
    simp only [toFixed2, if_neg h, toFixed2Pos, twoDigits]

/-- Claim C8: a successful /compress response carries an X-Compression-Ratio
header equal to ((1 - compressedSize / originalSize) * 100).toFixed(2) with
a percent sign; the rendering always has exactly two digits after the
decimal point, and compressedSize = originalSize renders as 0.00. -/
theorem c8_ratio_header (origSize : Nat) (encSize : EncodeCall → Nat)
    (req : CompressReq) (hpos : 0 < origSize)
    (hsrc : truthyStr req.url = true ∨ truthyStr req.base64 = true) :
    ∃ call, (compressHandler LoaderResult.ok origSize encSize req).encodeCall = some call ∧
      (compressHandler LoaderResult.ok origSize encSize req).xRatio =
        some (toFixed2 ((1 - (encSize call : ℚ) / (origSize : ℚ)) * 100) ++ "%") ∧
      (∃ pre d1 d2, toFixed2 ((1 - (encSize call : ℚ) / (origSize : ℚ)) * 100) =
        pre ++ "." ++ String.mk [d1, d2]) ∧
      (encSize call = origSize →
        (compressHandler LoaderResult.ok origSize encSize req).xRatio = some "0.00%") := by
  have hneg := no_source_iff req hsrc
  refine ⟨mkEncodeCall (req.format.getD "png")
    (clampQuality (req.quality.getD (JSValue.num 80))), ?_, ?_, toFixed2_decimals _, ?_⟩
  · simp [compressHandler, hneg]
  · simp [compressHandler, hneg, ratioHeaderStr]
  · intro hco
    have hne : ((origSize : ℚ)) ≠ 0 := Nat.cast_ne_zero.mpr hpos.ne'
    have h0 : ((1 : ℚ) - (origSize : ℚ) / (origSize : ℚ)) * 100 = ((0 : ℕ) : ℚ) := by
      rw [div_self hne]
      norm_num
    simp only [compressHandler, hneg, if_neg hneg, ratioHeaderStr, hco]
    rw [h0, toFixed2_natCast]
    rfl

/-- Witness for c8_ratio_header at original size 2 and compressed size 1. -/
theorem c8_witness :
    0 < 2 ∧ (truthyStr reqB64.url = true ∨ truthyStr reqB64.base64 = true) ∧
    (∃ call, (compressHandler LoaderResult.ok 2 (fun _ => 1) reqB64).encodeCall = some call ∧
      (compressHandler LoaderResult.ok 2 (fun _ => 1) reqB64).xRatio =
        some (toFixed2 ((1 - ((fun _ => 1) call : ℚ) / ((2 : Nat) : ℚ)) * 100) ++ "%") ∧
      (∃ pre d1 d2, toFixed2 ((1 - ((fun _ => 1) call : ℚ) / ((2 : Nat) : ℚ)) * 100) =
        pre ++ "." ++ String.mk [d1, d2]) ∧
      ((fun _ => 1) call = 2 →
        (compressHandler LoaderResult.ok 2 (fun _ => 1) reqB64).xRatio = some "0.00%")) :=
  ⟨by decide, by decide, c8_ratio_header 2 (fun _ => 1) reqB64 (by decide) (by decide)⟩

/- ### Claim C9 -/

theorem innerSpin_fst_le (env : Nat → LoadPhase) :
    ∀ k t, (innerSpin env t k).1 ≤ t + k := by
  intro k
  induction k with
  | zero => intro t; simp [innerSpin]
  | succ k ih =>
    intro t
    simp only [innerSpin]
    by_cases h : env t = LoadPhase.loaded
    · rw [if_pos h]
      omega
    · rw [if_neg h]
      have := ih (t + 1)
      omega

theorem innerSpin_false_fst (env : Nat → LoadPhase) :
    ∀ k t, (innerSpin env t k).2 = false → (innerSpin env t k).1 = t + k := by
  intro k
  induction k with
  | zero => intro t _; simp [innerSpin]
  | succ k ih =>
    intro t hf
    simp only [innerSpin] at hf ⊢
    by_cases h : env t = LoadPhase.loaded
    · rw [if_pos h] at hf
      simp at hf
    · rw [if_neg h] at hf ⊢
      have := ih (t + 1) hf
      omega

theorem innerSpin_stepEnv (t0 : Nat) :
    ∀ k t, t ≤ t0 →
      innerSpin (stepEnv t0) t k = if t0 < t + k then (t0, true) else (t + k, false) := by
  intro k
  induction k with
  | zero =>
    intro t ht
    rw [if_neg (by omega)]
    simp [innerSpin]
  | succ k ih =>
    intro t ht
    simp only [innerSpin]
    by_cases h : stepEnv t0 t = LoadPhase.loaded
    · have hte : t = t0 := by
        simp only [stepEnv] at h
        by_cases hlt : t < t0
        · simp [hlt] at h
        · omega
      rw [if_pos h, if_pos (by omega)]
      rw [hte]
    · have hlt : t < t0 := by
        by_contra hge
        exact h (by simp only [stepEnv]; rw [if_neg hge])
      rw [if_neg h, ih (t + 1) (by omega)]
      have harith : t + 1 + k = t + (k + 1) := by omega
      rw [harith]

theorem waitLoop_stepEnv (t0 : Nat) :
    ∀ fuel m, 50 * m ≤ t0 → m ≤ 200 → 200 ≤ m + fuel →
      waitLoop (stepEnv t0) 10000 fuel (50 * m) =
        if t0 ≤ 10000 then (t0, some ()) else (10000, none) := by
  intro fuel
  induction fuel with
  | zero =>
    intro m h1 h2 h3
    have hm : m = 200 := by omega
    subst hm
    simp only [waitLoop]
    by_cases h : t0 ≤ 10000
    · have ht0 : t0 = 10000 := by omega
      have hload : stepEnv t0 (50 * 200) = LoadPhase.loaded := by
        simp only [stepEnv]
        rw [if_neg (by omega)]
      simp [hload, h, ht0, stepEnv]
    · have hload : stepEnv t0 (50 * 200) = LoadPhase.loading := by
        simp only [stepEnv]
        rw [if_pos (by omega)]
      simp [hload, h]
  | succ fuel ih =>
    intro m h1 h2 h3
    simp only [waitLoop]
    by_cases hload : stepEnv t0 (50 * m) = LoadPhase.loaded
    · have hte : 50 * m = t0 := by
        simp only [stepEnv] at hload
        by_cases hlt : 50 * m < t0
        · simp [hlt] at hload
        · omega
      rw [if_neg (by simp [hload])]
      have hinner : (if stepEnv t0 (50 * m) = LoadPhase.loaded then some () else (none : Option Unit)) = some () := by
        simp [hload]
      rw [hinner, if_pos (show t0 ≤ 10000 by omega)]
      rw [hte]
    · have hlt : 50 * m < t0 := by
        by_contra hge
        exact hload (by simp only [stepEnv]; rw [if_neg hge])
      by_cases hcap : 50 * m < 10000
      · have hcond : stepEnv t0 (50 * m) ≠ LoadPhase.loaded ∧
            stepEnv t0 (50 * m) = LoadPhase.loading ∧ 50 * m < 10000 :=
          ⟨hload, by simp only [stepEnv]; rw [if_pos hlt], hcap⟩
        rw [if_pos hcond, innerSpin_stepEnv t0 50 (50 * m) (by omega)]
        by_cases hin : t0 < 50 * m + 50
        · rw [if_pos hin, if_pos (show t0 ≤ 10000 by omega)]
        · rw [if_neg hin]
          show waitLoop (stepEnv t0) 10000 fuel (50 * m + 50) = _
          have harith : 50 * m + 50 = 50 * (m + 1) := by ring
          rw [harith]
          exact ih (m + 1) (by omega) (by omega) (by omega)
      · rw [if_neg (fun hc => absurd hc.2.2 hcap)]
        have hinner : (if stepEnv t0 (50 * m) = LoadPhase.loaded then some () else (none : Option Unit)) = none := by
          simp [hload]
        rw [hinner, if_neg (show ¬ t0 ≤ 10000 by omega)]
        have hm : m = 200 := by omega
        subst hm
        norm_num

theorem waitLoop_fst_le (env : Nat → LoadPhase) :
    ∀ fuel m, m ≤ 200 → (waitLoop env 10000 fuel (50 * m)).1 ≤ 10000 := by
  intro fuel
  induction fuel with
  | zero =>
    intro m hm
    simp only [waitLoop]
    omega
  | succ fuel ih =>
    intro m hm
    simp only [waitLoop]
    by_cases hcond : env (50 * m) ≠ LoadPhase.loaded ∧
        env (50 * m) = LoadPhase.loading ∧ 50 * m < 10000
    · rw [if_pos hcond]
      have hm200 : m < 200 := by omega
      cases hin : innerSpin env (50 * m) 50 with
      | mk t2 found =>
        cases found with
        | true =>
          have h1 : t2 ≤ 50 * m + 50 := by
            have h := innerSpin_fst_le env 50 (50 * m)
            rw [hin] at h
            exact h
          show t2 ≤ 10000
          omega
        | false =>
          have h2 : t2 = 50 * m + 50 := by
            have h := innerSpin_false_fst env 50 (50 * m)
            rw [hin] at h
            exact h rfl
          show (waitLoop env 10000 fuel t2).1 ≤ 10000
          rw [h2, show 50 * m + 50 = 50 * (m + 1) by ring]
          exact ih (m + 1) (by omega)
    · rw [if_neg hcond]
      show 50 * m ≤ 10000
      omega

/-- Claim C9: the synchronous wait facade is bounded and terminates. The
outer loop polls in 50 ms check intervals; for every environment the
returned clock value never exceeds the 10000 ms cap, and when the download
completes at time t0 the call returns the handle at time t0 whenever
t0 is within the cap, and returns without a handle at the cap otherwise. -/
theorem c9_wait_bounded :
    (∀ env, (waitForSharpSync env).1 ≤ 10000) ∧
    (∀ t0, waitForSharpSync (stepEnv t0) =
      if t0 ≤ 10000 then (t0, some ()) else (10000, none)) := by
  constructor
  · intro env
    have h := waitLoop_fst_le env 201 0 (by omega)
    simpa [waitForSharpSync] using h
  · intro t0
    have h := waitLoop_stepEnv t0 201 0 (by omega) (by omega) (by omega)
    simpa [waitForSharpSync] using h

/- ### Claim C5 counterexample -/

/-- Claim C5 counterexample: on a concrete request whose quality is the
string abc, the clamp expression evaluates to NaN (none) and the encoder
receives an unclamped NaN quality on a success response, so the quality is
not always clamped into [1, 100]. -/
theorem c5_counterexample :
    (compressHandler LoaderResult.ok 9 (fun _ => 9) reqAbc).status = 200 ∧
    (compressHandler LoaderResult.ok 9 (fun _ => 9) reqAbc).encodeCall =
      some ⟨OutFormat.jpeg, none, none⟩ ∧
    clampQuality (JSValue.str "abc") = none := by
  refine ⟨?_, ?_, ?_⟩ <;> decide
